import Mathlib

/-!
Shallow embedding of `ai_video_pipeline/backend/main.py`: a pipeline that
uploads media, resolves a TwelveLabs index, polls a video-analysis task,
synthesizes a GPT prompt, and polls a Higgsfield generation task.  Remote
HTTP interactions are modelled by explicit "world" records supplying the
response (or the raised exception, as `Except.error` / `Option.none`) of
each remote call.  JSON payloads are modelled as structures holding exactly
the fields the source reads, with `Option String` fields (`none` = key
absent or null).  Python truthiness of strings ("" and None are falsy) is
modelled by `pyTruthy`, and Python `a or b` on such values by `pyOr`.
Functions are instrumented with call counts / call traces so that claims
about which remote calls happen can be stated.
-/

/-- Python truthiness of an optional string: `None` and `""` are falsy. -/
def pyTruthy : Option String → Bool
  | none => false
  | some s => s != ""

/-- Python `a or b` on optional strings: `a` if truthy, else `b`. -/
def pyOr (a b : Option String) : Option String :=
  if pyTruthy a then a else b

/-- Python `str(x)` of an optional string: `None` prints as "None". -/
def pyStr : Option String → String
  | none => "None"
  | some s => s

/-- Does `sub` match at the head of `s`? (helper for substring search). -/
def matchesAt : List Char → List Char → Bool
  | [], _ => true
  | _ :: _, [] => false
  | c :: cs, d :: ds => c == d && matchesAt cs ds

/-- Does `sub` occur as a contiguous run inside `s`? -/
def findSub (sub : List Char) : List Char → Bool
  | [] => matchesAt sub []
  | d :: ds => matchesAt sub (d :: ds) || findSub sub ds

/-- Python `sub in s` on strings (substring containment). -/
def pyIn (sub s : String) : Bool :=
  findSub sub.toList s.toList

/-- The environment configuration read at module setup.  Each field models
one `os.getenv` variable; `""` models an unset variable (Python code only
tests these via truthiness or equality with a non-empty literal, so unset
and empty are indistinguishable there). -/
structure EnvConfig where
  twelvelabs_api_key : String
  twelvelabs_index_id : String
  openai_api_key : String
  higgsfield_api_key : String
  higgsfield_api_secret : String
deriving Repr, DecidableEq

/-- Body of the TwelveLabs index-creation response: the `id` field read by
`result.get("id", "index_creation_failed")`. -/
structure IndexCreateResp where
  id : Option String
deriving Repr, DecidableEq

/-- Result of `create_index_if_needed`, instrumented with the number of
remote HTTP calls performed. -/
structure IndexOutcome where
  result : String
  remoteCalls : Nat
deriving Repr, DecidableEq

/-- `create_index_if_needed` from main.py.  `resp` models the single remote
`POST /indexes` interaction: `Except.error e` means the call (or parsing)
raised exception `e`. -/
def create_index_if_needed (cfg : EnvConfig) (resp : Except String IndexCreateResp) :
    IndexOutcome :=
  if cfg.twelvelabs_api_key == "" then
    { result := "twelvelabs_not_configured", remoteCalls := 0 }
  else if cfg.twelvelabs_index_id == "auto" || cfg.twelvelabs_index_id == "" then
    match resp with
    | .ok r => { result := r.id.getD "index_creation_failed", remoteCalls := 1 }
    | .error e => { result := "error_creating_index: " ++ e, remoteCalls := 1 }
  else
    { result := cfg.twelvelabs_index_id, remoteCalls := 0 }

/-- Body of the TwelveLabs task-submission response; the source reads
`task_result.get("_id") or task_result.get("id") or task_result.get("task_id")`. -/
structure TaskSubmitResp where
  underscore_id : Option String
  id : Option String
  task_id : Option String
deriving Repr, DecidableEq

/-- Body of one TwelveLabs task-status poll response; fields are the keys
the source reads (`result_description` models
`status_data.get("result", ...).get("description")`). -/
structure StatusData where
  status : Option String
  video_id : Option String
  description : Option String
  summary : Option String
  result_description : Option String
deriving Repr, DecidableEq

/-- Body of the dedicated description / summarize endpoints (the source
reads `description` and `summary`). -/
structure DescData where
  description : Option String
  summary : Option String
deriving Repr, DecidableEq

/-- Body of the video-details endpoint (`metadata_description` models
`video_data.get("metadata", ...).get("description")`). -/
structure VideoData where
  description : Option String
  summary : Option String
  metadata_description : Option String
deriving Repr, DecidableEq

/-- All remote interactions of `analyze_with_twelvelabs`: the task
submission, an infinite supply of poll responses (one per attempt;
`Except.error` = the GET or `.json()` raised, which in the source escapes
to the function-level handler), and the three description endpoints, each
`Option (status_code, body)`, `none` meaning the locally-caught try block
raised. -/
structure AnalysisWorld where
  taskSubmit : Except String TaskSubmitResp
  polls : Nat → Except String StatusData
  descEp : Option (Nat × DescData)
  summarizeEp : Option (Nat × DescData)
  videoEp : Option (Nat × VideoData)

/-- Outcome of the analysis poll loop (while retry_count < max_retries). -/
inductive APollResult where
  | ready (sd : StatusData)
  | taskFailed (sd : StatusData)
  | timedOut (last : Option StatusData)
  | exn (msg : String)
deriving Repr, DecidableEq

/-- The poll loop of `analyze_with_twelvelabs` (source lines 95-116):
`k` is the current attempt index, the fuel is `max_retries - retry_count`,
the third argument the last observed status payload.  Returns the outcome
and the number of status-check calls performed.  A `ready` status breaks,
a `failed` status returns an error, anything else (queued / indexing /
pending / unrecognized) sleeps and continues; a raised exception escapes
(modelled by `.exn`). -/
def analysisPoll (polls : Nat → Except String StatusData) :
    Nat → Nat → Option StatusData → APollResult × Nat
  | _, 0, last => (.timedOut last, 0)
  | k, fuel + 1, _ =>
    match polls k with
    | .error m => (.exn m, 1)
    | .ok sd =>
      if sd.status == some "ready" then (.ready sd, 1)
      else if sd.status == some "failed" then (.taskFailed sd, 1)
      else
        let r := analysisPoll polls (k + 1) fuel (some sd)
        (r.1, r.2 + 1)

/-- Which description-fallback endpoints were called, in order. -/
inductive DescCall where
  | descEndpoint
  | summarizeEndpoint
  | videoDetails
deriving Repr, DecidableEq

/-- What the primary description endpoint yields (source step 4a):
`desc_data.get("description") or desc_data.get("summary")` on a 200
response, nothing on a non-200 response or a locally-caught exception. -/
def primaryYield (w : AnalysisWorld) : Option String :=
  match w.descEp with
  | some (code, d) => if code == 200 then pyOr d.description d.summary else none
  | none => none

/-- What the summarize endpoint yields on a 200 response (source step 4b):
`summarize_data.get("summary") or summarize_data.get("description")`. -/
def summarizeYield (w : AnalysisWorld) : Option String :=
  match w.summarizeEp with
  | some (code, d) => if code == 200 then pyOr d.summary d.description else none
  | none => none

/-- What the video-details endpoint yields on a 200 response (source step
4c). -/
def videoYield (w : AnalysisWorld) : Option String :=
  match w.videoEp with
  | some (code, v) =>
      if code == 200 then pyOr (pyOr v.description v.summary) v.metadata_description
      else none
  | none => none

/-- What the completed task status payload itself yields (source step 4d). -/
def taskYield (sd : StatusData) : Option String :=
  pyOr (pyOr sd.description sd.summary) sd.result_description

/-- `description` after step 4a. -/
def descStage1 (w : AnalysisWorld) : Option String :=
  primaryYield w

/-- `description` after step 4b: if still falsy, a 200 summarize response
reassigns it (possibly to a falsy value); a non-200 response or exception
leaves it unchanged. -/
def descStage2 (w : AnalysisWorld) : Option String :=
  if pyTruthy (descStage1 w) then descStage1 w
  else
    match w.summarizeEp with
    | some (code, d) =>
        if code == 200 then pyOr d.summary d.description else descStage1 w
    | none => descStage1 w

/-- `description` after step 4c (video-details endpoint). -/
def descStage3 (w : AnalysisWorld) : Option String :=
  if pyTruthy (descStage2 w) then descStage2 w
  else
    match w.videoEp with
    | some (code, v) =>
        if code == 200 then pyOr (pyOr v.description v.summary) v.metadata_description
        else descStage2 w
    | none => descStage2 w

/-- `description` after step 4d.  The guard `if not description and
status_data` holds here whenever the previous stages were falsy: at this
point `status_data` is a dict containing a "status" key (the loop broke on
status "ready"), hence truthy. -/
def descStage4 (w : AnalysisWorld) (sd : StatusData) : Option String :=
  if pyTruthy (descStage3 w) then descStage3 w
  else taskYield sd

/-- The final description string: the placeholder substitutes for any
falsy value (source lines 195-197). -/
def finalDescription (d : Option String) : String :=
  match d with
  | some s => if s == "" then "Video processed but description unavailable" else s
  | none => "Video processed but description unavailable"

/-- The trace of description-endpoint calls: the primary endpoint is always
attempted; the summarize endpoint only when the description is still falsy;
the video-details endpoint only when it is still falsy after that.  Step 4d
reads the already-fetched status payload and performs no remote call. -/
def descCallTrace (w : AnalysisWorld) : List DescCall :=
  [DescCall.descEndpoint]
    ++ (if pyTruthy (descStage1 w) then [] else [DescCall.summarizeEndpoint])
    ++ (if pyTruthy (descStage2 w) then [] else [DescCall.videoDetails])

/-- The description-extraction fallback chain (source lines 128-197):
resulting optional description and the endpoint-call trace. -/
def extractDescription (w : AnalysisWorld) (sd : StatusData) :
    Option String × List DescCall :=
  (descStage4 w sd, descCallTrace w)

/-- Result value of `analyze_with_twelvelabs`: the dict either has an
"error" key, or `video_id` / `description` / `status := "ready"` keys. -/
inductive AnalysisResult where
  | err (msg : String)
  | ok (video_id : String) (description : String)
deriving Repr, DecidableEq

/-- Is the analysis result the non-error variant? -/
def AnalysisResult.isOk : AnalysisResult → Bool
  | .ok _ _ => true
  | .err _ => false

/-- `analyze_with_twelvelabs` outcome, instrumented with whether the task
submission call was reached, the number of status-check polls, and the
trace of description-endpoint calls. -/
structure AnalysisOutcome where
  result : AnalysisResult
  submitted : Bool
  pollCalls : Nat
  descCalls : List DescCall
deriving Repr, DecidableEq

/-- `analyze_with_twelvelabs` from main.py.  The guard returns immediately
when the API key is falsy or the index id contains the substring "error".
Exception text interpolated into error messages in the source (f-strings
embedding response payloads) is elided; each error branch keeps the fixed
message prefix of the source. -/
def analyze_with_twelvelabs (cfg : EnvConfig) (w : AnalysisWorld)
    (_video_url index_id : String) : AnalysisOutcome :=
  if cfg.twelvelabs_api_key == "" || pyIn "error" index_id then
    { result := .err ("TwelveLabs not configured or index error: " ++ index_id),
      submitted := false, pollCalls := 0, descCalls := [] }
  else
    match w.taskSubmit with
    | .error e =>
        { result := .err ("TwelveLabs API error: " ++ e),
          submitted := true, pollCalls := 0, descCalls := [] }
    | .ok tr =>
      let task_id := pyOr (pyOr tr.underscore_id tr.id) tr.task_id
      match task_id with
      | none =>
          { result := .err "No task_id returned",
            submitted := true, pollCalls := 0, descCalls := [] }
      | some t =>
        if t == "" then
          { result := .err "No task_id returned",
            submitted := true, pollCalls := 0, descCalls := [] }
        else
          let pr := analysisPoll w.polls 0 60 none
          match pr.1 with
          | .exn m =>
              { result := .err ("TwelveLabs API error: " ++ m),
                submitted := true, pollCalls := pr.2, descCalls := [] }
          | .taskFailed _sd =>
              { result := .err "Task failed",
                submitted := true, pollCalls := pr.2, descCalls := [] }
          | .timedOut _last =>
              { result := .err "Video processing timeout - task did not complete in time",
                submitted := true, pollCalls := pr.2, descCalls := [] }
          | .ready sd =>
            let video_id := pyOr sd.video_id (some t)
            match video_id with
            | none =>
                { result := .err "No video_id in completed task",
                  submitted := true, pollCalls := pr.2, descCalls := [] }
            | some v =>
              if v == "" then
                { result := .err "No video_id in completed task",
                  submitted := true, pollCalls := pr.2, descCalls := [] }
              else
                let ed := extractDescription w sd
                { result := .ok v (finalDescription ed.1),
                  submitted := true, pollCalls := pr.2, descCalls := ed.2 }

/-- The fixed instruction template of `generate_prompt_with_gpt`
(prompt_text in the source), embedding the user idea and the video
description. -/
def promptTemplate (user_text video_description : String) : String :=
  "\nYou are a creative AI prompt engineer. Using the following video description and user idea,\ngenerate a short, cinematic and vivid text prompt for AI video generation.\n\nUser idea: "
    ++ user_text
    ++ "\n\nVideo description:\n"
    ++ video_description
    ++ "\n\nWrite a single detailed prompt that describes what should visually appear in the AI-generated video.\nFocus on visuals, motion, color, and emotion. Keep it concise, vivid, and imaginative.\n"

/-- `generate_prompt_with_gpt` from main.py.  `chat` models the remote
chat-completion interaction as a function of the prompt text sent:
`Except.ok c` is the extracted message content, `Except.error e` any
exception in the try block (network failure, JSON parse failure, missing
"choices"/"message"/"content" keys). -/
def generate_prompt_with_gpt (cfg : EnvConfig) (chat : String → Except String String)
    (video_description user_text : String) : String :=
  if cfg.openai_api_key == "" then "OpenAI API key not configured."
  else
    match chat (promptTemplate user_text video_description) with
    | .ok content => content
    | .error e => "Error calling GPT API: " ++ e

/-- Body of the Higgsfield submission response JSON: whether it has an
"error" or "detail" key, and the candidate request-id fields. -/
structure GenSubmitBody where
  hasErrorKey : Bool
  hasDetailKey : Bool
  id : Option String
  request_id : Option String
  uuid : Option String
deriving Repr, DecidableEq

/-- The Higgsfield submission HTTP response: status code, raw text, and
the parsed body (`none` = `resp.json()` raised, caught by the bare
`except`). -/
structure GenHttpResp where
  code : Nat
  text : String
  body : Option GenSubmitBody
deriving Repr, DecidableEq

/-- Body of one Higgsfield status poll; fields are the keys read by the
source (`result_video_url` / `data_video_url` model the nested
`result`/`data` lookups, `errorField` models `status_data.get("error")`). -/
structure GenStatusData where
  status : Option String
  video_url : Option String
  url : Option String
  result_video_url : Option String
  data_video_url : Option String
  errorField : Option String
deriving Repr, DecidableEq

/-- One Higgsfield poll attempt event: an HTTP response with status code
and optionally-parsed body (`none` = `.json()` raised inside the attempt's
try block), or an exception raised by the GET itself. -/
inductive GenPollEvent where
  | http (code : Nat) (body : Option GenStatusData)
  | exn (msg : String)
deriving Repr, DecidableEq

/-- The video-URL extraction chain on a terminal generation status
(source lines 326-331). -/
def genUrlChain (sd : GenStatusData) : Option String :=
  pyOr (pyOr (pyOr sd.video_url sd.url) sd.result_video_url) sd.data_video_url

/-- Outcome of the Higgsfield poll loop. -/
inductive GPollResult where
  | success (video_url : String)
  | noUrl (sd : GenStatusData)
  | genFailed (sd : GenStatusData)
  | timedOut
deriving Repr, DecidableEq

/-- Does the poll-loop outcome abort the loop with an error (before the
attempt budget is spent)? -/
def GPollResult.isErrAbort : GPollResult → Bool
  | .genFailed _ => true
  | .noUrl _ => true
  | _ => false

/-- Is this poll event one that lets the loop continue: a non-200 response
(404 included), an exception, a 200 response whose body fails to parse, or
a 200 response whose status is non-terminal or unrecognized? -/
def GenPollEvent.isNonTerminal : GenPollEvent → Bool
  | .http code body =>
      if code == 200 then
        match body with
        | some sd =>
            !(sd.status == some "completed" || sd.status == some "success"
              || sd.status == some "failed" || sd.status == some "error")
        | none => true
      else true
  | .exn _ => true

/-- The poll loop of `generate_with_higgsfield` (source lines 312-361):
`k` is the attempt index, the fuel is `max_polls - poll_count`.  A 200
response with status completed/success extracts the video URL (missing URL
is an error); status failed/error aborts with an error; any other status,
a 404, any other non-200 code, or an exception sleeps and continues.
Returns the outcome and the number of status-check calls performed. -/
def genPoll (polls : Nat → GenPollEvent) : Nat → Nat → GPollResult × Nat
  | _, 0 => (.timedOut, 0)
  | k, fuel + 1 =>
    match polls k with
    | .http code body =>
      if code == 200 then
        match body with
        | some sd =>
          if sd.status == some "completed" || sd.status == some "success" then
            match genUrlChain sd with
            | some u => if u == "" then (.noUrl sd, 1) else (.success u, 1)
            | none => (.noUrl sd, 1)
          else if sd.status == some "failed" || sd.status == some "error" then
            (.genFailed sd, 1)
          else
            let r := genPoll polls (k + 1) fuel
            (r.1, r.2 + 1)
        | none =>
          let r := genPoll polls (k + 1) fuel
          (r.1, r.2 + 1)
      else if code == 404 then
        let r := genPoll polls (k + 1) fuel
        (r.1, r.2 + 1)
      else
        let r := genPoll polls (k + 1) fuel
        (r.1, r.2 + 1)
    | .exn _ =>
      let r := genPoll polls (k + 1) fuel
      (r.1, r.2 + 1)

/-- Result value of `generate_with_higgsfield`: a dict with an "error" key,
or with `video_url` / `status := "success"`. -/
inductive GenResult where
  | err (msg : String)
  | ok (video_url : String)
deriving Repr, DecidableEq

/-- `generate_with_higgsfield` outcome, instrumented with the number of
status-check polls performed. -/
structure GenOutcome where
  result : GenResult
  pollCalls : Nat
deriving Repr, DecidableEq

/-- `generate_with_higgsfield` from main.py.  `submit` models the
submission POST (`Except.error e` = the request raised, escaping to the
function-level handler); `polls` the per-attempt status-check events.
Payload interpolation into error-message f-strings is elided except where
the source embeds a plain string. -/
def generate_with_higgsfield (cfg : EnvConfig) (submit : Except String GenHttpResp)
    (polls : Nat → GenPollEvent) (_prompt _image_url : String) : GenOutcome :=
  if cfg.higgsfield_api_key == "" || cfg.higgsfield_api_secret == "" then
    { result := .err "HIGGSFIELD_API_KEY or HIGGSFIELD_API_SECRET not configured",
      pollCalls := 0 }
  else
    match submit with
    | .error e =>
        { result := .err ("Higgsfield API error: " ++ e), pollCalls := 0 }
    | .ok resp =>
      if !(resp.code == 200 || resp.code == 201) then
        { result := .err ("Higgsfield API error: " ++ toString resp.code ++ " - " ++ resp.text),
          pollCalls := 0 }
      else
        match resp.body with
        | none =>
            { result := .err ("Invalid response format: " ++ resp.text.take 200),
              pollCalls := 0 }
        | some body =>
          if body.hasErrorKey || body.hasDetailKey then
            { result := .err "Higgsfield error", pollCalls := 0 }
          else
            match pyOr (pyOr body.id body.request_id) body.uuid with
            | none => { result := .err "No request ID in response", pollCalls := 0 }
            | some rid =>
              if rid == "" then
                { result := .err "No request ID in response", pollCalls := 0 }
              else
                let pr := genPoll polls 0 120
                match pr.1 with
                | .success u => { result := .ok u, pollCalls := pr.2 }
                | .noUrl _sd =>
                    { result := .err "No video URL in response", pollCalls := pr.2 }
                | .genFailed sd =>
                    { result := .err ("Generation failed: " ++ pyStr sd.errorField),
                      pollCalls := pr.2 }
                | .timedOut =>
                    { result := .err "Generation timeout", pollCalls := pr.2 }

/-- The pipeline steps of `process_ai`, in execution order. -/
inductive PStep where
  | upload
  | resolveIndex
  | analysis
  | promptSynthesis
  | generation
deriving Repr, DecidableEq

/-- The JSON object returned by `process_ai`.  `none` models an absent key;
`generated_video = some none` models the key present with value null. -/
structure PipelineResponse where
  status : String
  message : Option String
  original_video : Option String
  image_used : Option String
  description : Option String
  final_prompt : Option String
  generated_video : Option (Option String)
deriving Repr, DecidableEq

/-- All remote interactions of one `process_ai` request.  `upload` models
the two Cloudinary uploads (`Except.error e` = an exception escaping to the
endpoint's catch-all handler); the rest feed the helper functions. -/
structure PipelineWorld where
  upload : Except String (String × String)
  indexResp : Except String IndexCreateResp
  analysis : AnalysisWorld
  chat : String → Except String String
  genSubmit : Except String GenHttpResp
  genPolls : Nat → GenPollEvent

/-- `process_ai` from main.py, instrumented with the list of pipeline
steps that executed.  An analysis error returns immediately with status
"error" and only the uploaded URLs; a generation error returns status
"partial_success" with a null generated video; an exception during upload
hits the catch-all and returns only status and message. -/
def process_ai (cfg : EnvConfig) (w : PipelineWorld) (text : String) :
    PipelineResponse × List PStep :=
  match w.upload with
  | .error e =>
      ({ status := "error", message := some e, original_video := none,
         image_used := none, description := none, final_prompt := none,
         generated_video := none },
       [PStep.upload])
  | .ok (video_url, image_url) =>
    let index_id := (create_index_if_needed cfg w.indexResp).result
    let a := analyze_with_twelvelabs cfg w.analysis video_url index_id
    match a.result with
    | .err m =>
        ({ status := "error", message := some ("Video analysis failed: " ++ m),
           original_video := some video_url, image_used := some image_url,
           description := none, final_prompt := none, generated_video := none },
         [PStep.upload, PStep.resolveIndex, PStep.analysis])
    | .ok _vid desc =>
      let gpt_prompt := generate_prompt_with_gpt cfg w.chat desc text
      let g := generate_with_higgsfield cfg w.genSubmit w.genPolls gpt_prompt image_url
      match g.result with
      | .err gm =>
          ({ status := "partial_success",
             message := some ("Video generation failed: " ++ gm),
             original_video := some video_url, image_used := some image_url,
             description := some desc, final_prompt := some gpt_prompt,
             generated_video := some none },
           [PStep.upload, PStep.resolveIndex, PStep.analysis,
            PStep.promptSynthesis, PStep.generation])
      | .ok gurl =>
          ({ status := "success", message := none,
             original_video := some video_url, image_used := some image_url,
             description := some desc, final_prompt := some gpt_prompt,
             generated_video := some (some gurl) },
           [PStep.upload, PStep.resolveIndex, PStep.analysis,
            PStep.promptSynthesis, PStep.generation])

/-- Is the analysis poll-loop outcome a timeout? -/
def APollResult.isTimeout : APollResult → Bool
  | .timedOut _ => true
  | _ => false

/-- Is an analysis poll response non-terminal: a parsed payload whose
status is neither "ready" nor "failed" (an exception is terminal for the
analysis loop, since it escapes to the function-level handler)? -/
def nonTerminalA (e : Except String StatusData) : Bool :=
  match e with
  | .ok sd => !(sd.status == some "ready" || sd.status == some "failed")
  | .error _ => false

/-- A TwelveLabs configuration with a fixed index id. -/
def tlCfg : EnvConfig :=
  { twelvelabs_api_key := "tlkey", twelvelabs_index_id := "idx1",
    openai_api_key := "oakey", higgsfield_api_key := "hfkey",
    higgsfield_api_secret := "hfsec" }

/-- A TwelveLabs configuration with auto index provisioning. -/
def cfgAuto : EnvConfig :=
  { twelvelabs_api_key := "tlkey", twelvelabs_index_id := "auto",
    openai_api_key := "oakey", higgsfield_api_key := "hfkey",
    higgsfield_api_secret := "hfsec" }

/-- A configuration with no TwelveLabs credential but a fixed index id. -/
def cfgNoKey : EnvConfig :=
  { twelvelabs_api_key := "", twelvelabs_index_id := "myindex",
    openai_api_key := "", higgsfield_api_key := "",
    higgsfield_api_secret := "" }

/-- A successful task submission returning task id "task1". -/
def submitOkW : Except String TaskSubmitResp :=
  Except.ok { underscore_id := some "task1", id := none, task_id := none }

/-- A poll payload reporting status "failed". -/
def sdFailedW : StatusData :=
  { status := some "failed", video_id := none, description := none,
    summary := none, result_description := none }

/-- A poll payload reporting status "ready" with a video id. -/
def sdReadyW : StatusData :=
  { status := some "ready", video_id := some "vid1", description := none,
    summary := none, result_description := none }

/-- A poll payload reporting status "pending". -/
def sdPendingW : StatusData :=
  { status := some "pending", video_id := none, description := none,
    summary := none, result_description := none }

/-- Analysis world: task submits fine, first poll reports "failed". -/
def awFailFirst : AnalysisWorld :=
  { taskSubmit := submitOkW, polls := fun _ => .ok sdFailedW,
    descEp := none, summarizeEp := none, videoEp := none }

/-- Analysis world: task submits fine, the first status poll raises a
network exception. -/
def awPollExn : AnalysisWorld :=
  { taskSubmit := submitOkW, polls := fun _ => .error "boom",
    descEp := none, summarizeEp := none, videoEp := none }

/-- Analysis world: first poll ready, primary description endpoint
delivers a description. -/
def awReady : AnalysisWorld :=
  { taskSubmit := submitOkW, polls := fun _ => .ok sdReadyW,
    descEp := some (200, { description := some "a crisp description", summary := none }),
    summarizeEp := none, videoEp := none }

/-- Analysis world: every poll reports "pending" forever. -/
def awPending : AnalysisWorld :=
  { taskSubmit := submitOkW, polls := fun _ => .ok sdPendingW,
    descEp := none, summarizeEp := none, videoEp := none }

/-- Generation poll payload: status "failed" with an error detail. -/
def gsdFailedW : GenStatusData :=
  { status := some "failed", video_url := none, url := none,
    result_video_url := none, data_video_url := none, errorField := some "gpu melted" }

/-- Generation poll payload: completed with a video URL. -/
def gsdDoneW : GenStatusData :=
  { status := some "completed", video_url := some "genvid", url := none,
    result_video_url := none, data_video_url := none, errorField := none }

/-- Generation poll payload: still pending. -/
def gsdPendingW : GenStatusData :=
  { status := some "pending", video_url := none, url := none,
    result_video_url := none, data_video_url := none, errorField := none }

/-- A successful Higgsfield submission with request id "rid1". -/
def genSubmitOkW : Except String GenHttpResp :=
  Except.ok { code := 200, text := "okbody",
              body := some { hasErrorKey := false, hasDetailKey := false,
                             id := some "rid1", request_id := none, uuid := none } }

/-- Generation polls: every attempt reports "failed". -/
def genPollsFailW : Nat → GenPollEvent := fun _ => .http 200 (some gsdFailedW)

/-- Generation polls: every attempt reports completed with a URL. -/
def genPollsDoneW : Nat → GenPollEvent := fun _ => .http 200 (some gsdDoneW)

/-- Generation polls: every attempt reports "pending". -/
def genPollsPendingW : Nat → GenPollEvent := fun _ => .http 200 (some gsdPendingW)

/-- A chat completion that always succeeds with a fixed prompt. -/
def chatOkW : String → Except String String := fun _ => .ok "cinematic prompt"

/-- Pipeline world in which the analysis task fails on the first poll. -/
def wFailAnalysis : PipelineWorld :=
  { upload := .ok ("vurl", "iurl"), indexResp := .ok { id := some "idx1" },
    analysis := awFailFirst, chat := chatOkW, genSubmit := genSubmitOkW,
    genPolls := genPollsDoneW }

/-- Pipeline world in which analysis succeeds and generation fails. -/
def wGenFail : PipelineWorld :=
  { upload := .ok ("vurl", "iurl"), indexResp := .ok { id := some "idx1" },
    analysis := awReady, chat := chatOkW, genSubmit := genSubmitOkW,
    genPolls := genPollsFailW }

/-- Pipeline world in which every step succeeds. -/
def wAllOk : PipelineWorld :=
  { upload := .ok ("vurl", "iurl"), indexResp := .ok { id := some "idx1" },
    analysis := awReady, chat := chatOkW, genSubmit := genSubmitOkW,
    genPolls := genPollsDoneW }

/-- Pipeline world in which the Cloudinary upload raises. -/
def wUploadFail : PipelineWorld :=
  { upload := .error "upload boom", indexResp := .ok { id := some "idx1" },
    analysis := awReady, chat := chatOkW, genSubmit := genSubmitOkW,
    genPolls := genPollsDoneW }

/-- Analysis world: ready task, primary description endpoint returns 200
with empty fields, summarize endpoint delivers the text. -/
def awSummarize : AnalysisWorld :=
  { taskSubmit := submitOkW, polls := fun _ => .ok sdReadyW,
    descEp := some (200, { description := none, summary := none }),
    summarizeEp := some (200, { description := none, summary := some "summary text" }),
    videoEp := none }

/-- Analysis world: ready task, every description source empty (all three
endpoints raise, the task payload has no description fields). -/
def awNoDesc : AnalysisWorld :=
  { taskSubmit := submitOkW, polls := fun _ => .ok sdReadyW,
    descEp := none, summarizeEp := none, videoEp := none }

/-- C7 counterexample: with the analysis credential unset but a fixed
non-"auto" index id "myindex" configured, the resolver does not return the
configured identifier: it returns the "twelvelabs_not_configured" sentinel
(though it still performs zero remote calls). -/
theorem C7_counterexample :
    cfgNoKey.twelvelabs_index_id = "myindex" ∧
    cfgNoKey.twelvelabs_index_id ≠ "auto" ∧
    (create_index_if_needed cfgNoKey (Except.ok { id := some "zzz" })).result ≠ "myindex" ∧
    create_index_if_needed cfgNoKey (Except.ok { id := some "zzz" }) =
      { result := "twelvelabs_not_configured", remoteCalls := 0 } := by
  refine ⟨rfl, by decide, by decide, rfl⟩

/-- C7 (amended): when the analysis credential is configured and the index
identifier is set to a fixed value that is neither empty nor the sentinel
"auto", the resolver returns that identifier unchanged on every call and
performs zero remote calls. -/
theorem C7_amended_index_resolver_idempotent (cfg : EnvConfig)
    (resp : Except String IndexCreateResp)
    (hk : (cfg.twelvelabs_api_key == "") = false)
    (ha : (cfg.twelvelabs_index_id == "auto") = false)
    (he : (cfg.twelvelabs_index_id == "") = false) :
    create_index_if_needed cfg resp =
      { result := cfg.twelvelabs_index_id, remoteCalls := 0 } := by
  simp [create_index_if_needed, hk, ha, he]

/-- Witness for C7 (amended) at a concrete configuration. -/
theorem C7_amended_witness :
    create_index_if_needed tlCfg (Except.ok { id := none }) =
      { result := tlCfg.twelvelabs_index_id, remoteCalls := 0 } :=
  C7_amended_index_resolver_idempotent tlCfg (Except.ok { id := none }) rfl rfl rfl

/-- C9: the Prompt Synthesizer always returns a string (its return type)
and never propagates an exception: with no credential configured it
returns the fixed "not configured" string regardless of the remote
interaction; on any call failure (network, parsing, or missing response
keys, all modelled by `Except.error`) it returns a string embedding the
error detail; on success it returns the extracted content. -/
theorem C9_prompt_synthesizer_total (cfg : EnvConfig)
    (chat : String → Except String String) (d t : String) :
    (cfg.openai_api_key = "" →
      generate_prompt_with_gpt cfg chat d t = "OpenAI API key not configured.") ∧
    (∀ e, cfg.openai_api_key ≠ "" → chat (promptTemplate t d) = .error e →
      generate_prompt_with_gpt cfg chat d t = "Error calling GPT API: " ++ e) ∧
    (∀ c, cfg.openai_api_key ≠ "" → chat (promptTemplate t d) = .ok c →
      generate_prompt_with_gpt cfg chat d t = c) := by
  refine ⟨fun h => by simp [generate_prompt_with_gpt, h], ?_, ?_⟩
  · intro e hk hc
    simp [generate_prompt_with_gpt, hk, hc]
  · intro c hk hc
    simp [generate_prompt_with_gpt, hk, hc]

/-- Witness for C9 at concrete inputs: an unconfigured key yields the
fixed string, and a failing call yields the embedded error detail. -/
theorem C9_witness :
    generate_prompt_with_gpt cfgNoKey chatOkW "desc" "idea" = "OpenAI API key not configured." ∧
    generate_prompt_with_gpt tlCfg (fun _ => .error "rate limited") "desc" "idea" =
      "Error calling GPT API: rate limited" := by
  constructor
  · exact (C9_prompt_synthesizer_total cfgNoKey chatOkW "desc" "idea").1 rfl
  · exact (C9_prompt_synthesizer_total tlCfg (fun _ => .error "rate limited") "desc" "idea").2.1
      "rate limited" (by decide) rfl

/-- If the immediate-reject guard of the Analysis Poller does not fire,
the remote task submission is reached, whatever the remote world does. -/
theorem analyze_submitted_of_guard (cfg : EnvConfig) (w : AnalysisWorld)
    (vu ii : String)
    (h : (cfg.twelvelabs_api_key == "" || pyIn "error" ii) = false) :
    (analyze_with_twelvelabs cfg w vu ii).submitted = true := by
  simp only [analyze_with_twelvelabs, h, Bool.false_eq_true, if_false]
  repeat' split
  all_goals rfl

/-- C10: the Analysis Poller's immediate-reject guard tests only for the
substring "error" in the index id (plus credential absence).  The Index
Resolver's failure sentinel "index_creation_failed" does not contain
"error", so with the analysis credential present (and auto provisioning
whose creation response lacks an id, which is exactly what produces the
sentinel) the poller passes the guard and proceeds to submit a remote
task using the sentinel as the index identifier, instead of returning the
immediate configuration error. -/
theorem C10_failure_sentinel_passes_guard (cfg : EnvConfig) (w : AnalysisWorld)
    (vu : String) (hk : (cfg.twelvelabs_api_key == "") = false) :
    pyIn "error" "index_creation_failed" = false ∧
    (∀ resp : IndexCreateResp, resp.id = none → cfg.twelvelabs_index_id = "auto" →
      (create_index_if_needed cfg (Except.ok resp)).result = "index_creation_failed") ∧
    (analyze_with_twelvelabs cfg w vu "index_creation_failed").submitted = true := by
  refine ⟨by decide, ?_, ?_⟩
  · intro resp h1 h2
    simp [create_index_if_needed, hk, h2, h1]
  · exact analyze_submitted_of_guard cfg w vu "index_creation_failed"
      (by rw [hk]; simp; decide)

/-- Witness for C10 at a concrete configuration with auto provisioning. -/
theorem C10_witness :
    (create_index_if_needed cfgAuto (Except.ok { id := none })).result =
      "index_creation_failed" ∧
    (analyze_with_twelvelabs cfgAuto awPending "vurl" "index_creation_failed").submitted
      = true := by
  have h := C10_failure_sentinel_passes_guard cfgAuto awPending "vurl" rfl
  exact ⟨h.2.1 { id := none } rfl rfl, h.2.2⟩

/-- The analysis poll loop performs at most `fuel` status-check calls. -/
theorem analysisPoll_calls_le (polls : Nat → Except String StatusData) :
    ∀ fuel k last, (analysisPoll polls k fuel last).2 ≤ fuel := by
  intro fuel
  induction fuel with
  | zero => intro k last; simp [analysisPoll]
  | succ n ih =>
    intro k last
    simp only [analysisPoll]
    cases h : polls k with
    | error m => simp
    | ok sd =>
      by_cases h1 : sd.status == some "ready"
      · simp [h1]
      · by_cases h2 : sd.status == some "failed"
        · simp [h1, h2]
        · simpa [h1, h2] using Nat.succ_le_succ (ih (k + 1) (some sd))

/-- The generation poll loop performs at most `fuel` status-check calls. -/
theorem genPoll_calls_le (polls : Nat → GenPollEvent) :
    ∀ fuel k, (genPoll polls k fuel).2 ≤ fuel := by
  intro fuel
  induction fuel with
  | zero => intro k; simp [genPoll]
  | succ n ih =>
    intro k
    simp only [genPoll]
    cases h : polls k with
    | exn m => simpa using Nat.succ_le_succ (ih (k + 1))
    | http code body =>
      by_cases hc : code == 200
      · cases body with
        | none => simpa [hc] using Nat.succ_le_succ (ih (k + 1))
        | some sd =>
          by_cases h1 : (sd.status == some "completed" || sd.status == some "success") = true
          · cases hu : genUrlChain sd with
            | none => simp [hc, h1, hu]
            | some u => by_cases hu2 : u == "" <;> simp [hc, h1, hu, hu2]
          · by_cases h2 : (sd.status == some "failed" || sd.status == some "error") = true
            · simp [hc, h1, h2]
            · simpa [hc, h1, h2] using Nat.succ_le_succ (ih (k + 1))
      · by_cases h404 : code == 404 <;>
          simpa [hc, h404] using Nat.succ_le_succ (ih (k + 1))

/-- If every poll response is non-terminal, the analysis loop spends its
whole budget and times out. -/
theorem analysisPoll_all_nonterminal (polls : Nat → Except String StatusData)
    (h : ∀ k, nonTerminalA (polls k) = true) :
    ∀ fuel k last, (analysisPoll polls k fuel last).1.isTimeout = true ∧
      (analysisPoll polls k fuel last).2 = fuel := by
  intro fuel
  induction fuel with
  | zero => intro k last; simp [analysisPoll, APollResult.isTimeout]
  | succ n ih =>
    intro k last
    have hk := h k
    simp only [analysisPoll]
    cases hp : polls k with
    | error m => simp [nonTerminalA, hp] at hk
    | ok sd =>
      rw [hp] at hk
      simp only [nonTerminalA, Bool.not_eq_true', Bool.or_eq_false_iff] at hk
      simpa [hk.1, hk.2] using ih (k + 1) (some sd)

/-- If every poll event lets the loop continue, the generation loop spends
its whole budget and times out. -/
theorem genPoll_all_nonterminal (polls : Nat → GenPollEvent)
    (h : ∀ k, (polls k).isNonTerminal = true) :
    ∀ fuel k, genPoll polls k fuel = (.timedOut, fuel) := by
  intro fuel
  induction fuel with
  | zero => intro k; simp [genPoll]
  | succ n ih =>
    intro k
    have hk := h k
    simp only [genPoll]
    cases hp : polls k with
    | exn m => simp [ih (k + 1)]
    | http code body =>
      rw [hp] at hk
      by_cases hc : code == 200
      · cases body with
        | none => simp [hc, ih (k + 1)]
        | some sd =>
          simp only [GenPollEvent.isNonTerminal, hc, if_true, Bool.not_eq_true',
            Bool.or_eq_false_iff] at hk
          simp [hc, hk.1.1.1, hk.1.1.2, hk.1.2, hk.2, ih (k + 1)]
      · by_cases h404 : code == 404 <;> simp [hc, h404, ih (k + 1)]

/-- Whatever the remote world does, the Analysis Poller performs at most
60 status-check calls. -/
theorem analyze_pollCalls_le (cfg : EnvConfig) (w : AnalysisWorld) (vu ii : String) :
    (analyze_with_twelvelabs cfg w vu ii).pollCalls ≤ 60 := by
  have hb := analysisPoll_calls_le w.polls 60 0 none
  simp only [analyze_with_twelvelabs]
  repeat' split
  all_goals simp_all

/-- Whatever the remote world does, the Generation Poller performs at most
120 status-check calls. -/
theorem gen_pollCalls_le (cfg : EnvConfig) (submit : Except String GenHttpResp)
    (polls : Nat → GenPollEvent) (p iu : String) :
    (generate_with_higgsfield cfg submit polls p iu).pollCalls ≤ 120 := by
  have hb := genPoll_calls_le polls 120 0
  simp only [generate_with_higgsfield]
  repeat' split
  all_goals simp_all

/-- C4: polling bounds.  The Analysis Poller performs at most 60 remote
status-check calls and the Generation Poller at most 120, whatever the
remote worlds do; and when every observed status is non-terminal or
unrecognized, each loop spends exactly its budget and the enclosing
function returns the timeout error value rather than continuing. -/
theorem C4_polling_bounds :
    (∀ cfg w vu ii, (analyze_with_twelvelabs cfg w vu ii).pollCalls ≤ 60) ∧
    (∀ cfg submit polls p iu,
      (generate_with_higgsfield cfg submit polls p iu).pollCalls ≤ 120) ∧
    (∀ (polls : Nat → Except String StatusData), (∀ k, nonTerminalA (polls k) = true) →
      ∀ k last, (analysisPoll polls k 60 last).1.isTimeout = true ∧
        (analysisPoll polls k 60 last).2 = 60) ∧
    (∀ (polls : Nat → GenPollEvent), (∀ k, (polls k).isNonTerminal = true) →
      ∀ k, genPoll polls k 120 = (.timedOut, 120)) ∧
    (∀ cfg w vu ii tr t, (cfg.twelvelabs_api_key == "" || pyIn "error" ii) = false →
      w.taskSubmit = .ok tr →
      pyOr (pyOr tr.underscore_id tr.id) tr.task_id = some t → (t == "") = false →
      (∀ k, nonTerminalA (w.polls k) = true) →
      (analyze_with_twelvelabs cfg w vu ii).result =
        .err "Video processing timeout - task did not complete in time" ∧
      (analyze_with_twelvelabs cfg w vu ii).pollCalls = 60) ∧
    (∀ cfg submit polls p iu resp body rid,
      (cfg.higgsfield_api_key == "" || cfg.higgsfield_api_secret == "") = false →
      submit = Except.ok resp → (!(resp.code == 200 || resp.code == 201)) = false →
      resp.body = some body → (body.hasErrorKey || body.hasDetailKey) = false →
      pyOr (pyOr body.id body.request_id) body.uuid = some rid → (rid == "") = false →
      (∀ k, (polls k).isNonTerminal = true) →
      (generate_with_higgsfield cfg submit polls p iu).result = .err "Generation timeout" ∧
      (generate_with_higgsfield cfg submit polls p iu).pollCalls = 120) := by
  refine ⟨analyze_pollCalls_le, gen_pollCalls_le, ?_, ?_, ?_, ?_⟩
  · intro polls h k last
    exact analysisPoll_all_nonterminal polls h 60 k last
  · intro polls h k
    exact genPoll_all_nonterminal polls h 120 k
  · intro cfg w vu ii tr t hg hs ht ht2 hnt
    have htm := analysisPoll_all_nonterminal w.polls hnt 60 0 none
    cases hres : (analysisPoll w.polls 0 60 none).1 with
    | ready sd => rw [hres] at htm; simp [APollResult.isTimeout] at htm
    | taskFailed sd => rw [hres] at htm; simp [APollResult.isTimeout] at htm
    | exn m => rw [hres] at htm; simp [APollResult.isTimeout] at htm
    | timedOut last =>
      simp [analyze_with_twelvelabs, hg, hs, ht, ht2, hres, htm.2]
  · intro cfg submit polls p iu resp body rid hc hs hcode hb herr hrid hrid2 hnt
    have htm := genPoll_all_nonterminal polls hnt 120 0
    simp [generate_with_higgsfield, hc, hs, hcode, hb, herr, hrid, hrid2, htm]

/-- Witness for C4: with every poll reporting "pending" forever, the
analysis loop performs exactly 60 calls then times out, the generation
loop exactly 120, and the two pollers return their timeout error values. -/
theorem C4_witness :
    (analyze_with_twelvelabs tlCfg awPending "vurl" "idx1").pollCalls ≤ 60 ∧
    (generate_with_higgsfield tlCfg genSubmitOkW genPollsPendingW "p" "i").pollCalls ≤ 120 ∧
    (analysisPoll awPending.polls 0 60 none).1.isTimeout = true ∧
    genPoll genPollsPendingW 0 120 = (.timedOut, 120) ∧
    (analyze_with_twelvelabs tlCfg awPending "vurl" "idx1").result =
      .err "Video processing timeout - task did not complete in time" ∧
    (generate_with_higgsfield tlCfg genSubmitOkW genPollsPendingW "p" "i").result =
      .err "Generation timeout" := by
  have h := C4_polling_bounds
  refine ⟨h.1 tlCfg awPending "vurl" "idx1",
          h.2.1 tlCfg genSubmitOkW genPollsPendingW "p" "i",
          (h.2.2.1 awPending.polls (fun k => rfl) 0 none).1,
          h.2.2.2.1 genPollsPendingW (fun k => rfl) 0,
          (h.2.2.2.2.1 tlCfg awPending "vurl" "idx1"
            { underscore_id := some "task1", id := none, task_id := none } "task1"
            (by decide) rfl rfl rfl (fun k => rfl)).1,
          (h.2.2.2.2.2 tlCfg genSubmitOkW genPollsPendingW "p" "i"
            { code := 200, text := "okbody",
              body := some { hasErrorKey := false, hasDetailKey := false,
                             id := some "rid1", request_id := none, uuid := none } }
            { hasErrorKey := false, hasDetailKey := false,
              id := some "rid1", request_id := none, uuid := none } "rid1"
            rfl rfl rfl rfl rfl rfl rfl (fun k => rfl)).1⟩

/-- If the generation poll loop aborts with an error before its budget is
spent, some attempt saw a 200 response whose status was failed/error, or a
terminal status whose payload carried no video URL. -/
theorem genPoll_abort_reason (polls : Nat → GenPollEvent) :
    ∀ fuel k, (genPoll polls k fuel).1.isErrAbort = true →
      ∃ j, j < fuel ∧ ∃ sd, polls (k + j) = GenPollEvent.http 200 (some sd) ∧
        ((sd.status == some "failed" || sd.status == some "error") = true ∨
         ((sd.status == some "completed" || sd.status == some "success") = true ∧
          pyTruthy (genUrlChain sd) = false)) := by
  intro fuel
  induction fuel with
  | zero => intro k h; simp [genPoll, GPollResult.isErrAbort] at h
  | succ n ih =>
    intro k h
    simp only [genPoll] at h
    cases hp : polls k with
    | exn m =>
      rw [hp] at h
      simp only [] at h
      obtain ⟨j, hj, sd, hsd, hcase⟩ := ih (k + 1) h
      refine ⟨j + 1, by omega, sd, ?_, hcase⟩
      have heq : k + (j + 1) = k + 1 + j := by omega
      rw [heq]
      exact hsd
    | http code body =>
      rw [hp] at h
      by_cases hc : code == 200
      · have hc200 : code = 200 := eq_of_beq hc
        cases body with
        | none =>
          simp only [hc, if_true] at h
          obtain ⟨j, hj, sd, hsd, hcase⟩ := ih (k + 1) h
          refine ⟨j + 1, by omega, sd, ?_, hcase⟩
          have heq : k + (j + 1) = k + 1 + j := by omega
          rw [heq]
          exact hsd
        | some sd =>
          simp only [hc, if_true] at h
          by_cases h1 : (sd.status == some "completed" || sd.status == some "success") = true
          · simp only [h1, if_true] at h
            refine ⟨0, by omega, sd, by rw [Nat.add_zero, hp, hc200], Or.inr ⟨h1, ?_⟩⟩
            cases hu : genUrlChain sd with
            | none => simp [pyTruthy]
            | some u =>
              rw [hu] at h
              by_cases hu2 : u == ""
              · have hue : u = "" := eq_of_beq hu2
                subst hue
                simp [pyTruthy]
              · simp [hu2, GPollResult.isErrAbort] at h
          · simp only [h1, if_false] at h
            by_cases h2 : (sd.status == some "failed" || sd.status == some "error") = true
            · exact ⟨0, by omega, sd, by rw [Nat.add_zero, hp, hc200], Or.inl h2⟩
            · simp only [h2, if_false] at h
              obtain ⟨j, hj, sd2, hsd, hcase⟩ := ih (k + 1) h
              refine ⟨j + 1, by omega, sd2, ?_, hcase⟩
              have heq : k + (j + 1) = k + 1 + j := by omega
              rw [heq]
              exact hsd
      · by_cases h404 : code == 404
        all_goals
          simp only [hc, h404, if_true, if_false] at h
          obtain ⟨j, hj, sd, hsd, hcase⟩ := ih (k + 1) h
          refine ⟨j + 1, by omega, sd, ?_, hcase⟩
          have heq : k + (j + 1) = k + 1 + j := by omega
          rw [heq]
          exact hsd

/-- C8: Generation Poller transient resilience.  On any attempt, a 404
response continues polling; any other non-200 response continues polling;
a transport exception (or a 200 body that fails to parse) continues
polling — in each case the loop recurses with one attempt consumed.  And
the loop returns an error before its attempt budget is spent only when
some attempt saw a 200 response whose status was failed/error, or whose
terminal status carried no video URL. -/
theorem C8_generation_poll_resilience :
    (∀ (polls : Nat → GenPollEvent) k fuel b, polls k = GenPollEvent.http 404 b →
      genPoll polls k (fuel + 1) =
        ((genPoll polls (k + 1) fuel).1, (genPoll polls (k + 1) fuel).2 + 1)) ∧
    (∀ (polls : Nat → GenPollEvent) k fuel c b, polls k = GenPollEvent.http c b →
      (c == 200) = false →
      genPoll polls k (fuel + 1) =
        ((genPoll polls (k + 1) fuel).1, (genPoll polls (k + 1) fuel).2 + 1)) ∧
    (∀ (polls : Nat → GenPollEvent) k fuel m, polls k = GenPollEvent.exn m →
      genPoll polls k (fuel + 1) =
        ((genPoll polls (k + 1) fuel).1, (genPoll polls (k + 1) fuel).2 + 1)) ∧
    (∀ (polls : Nat → GenPollEvent) fuel k,
      (genPoll polls k fuel).1.isErrAbort = true →
      ∃ j, j < fuel ∧ ∃ sd, polls (k + j) = GenPollEvent.http 200 (some sd) ∧
        ((sd.status == some "failed" || sd.status == some "error") = true ∨
         ((sd.status == some "completed" || sd.status == some "success") = true ∧
          pyTruthy (genUrlChain sd) = false))) := by
  refine ⟨?_, ?_, ?_, genPoll_abort_reason⟩
  · intro polls k fuel b hp
    simp [genPoll, hp]
  · intro polls k fuel c b hp hc
    by_cases h404 : c == 404 <;> simp [genPoll, hp, hc, h404]
  · intro polls k fuel m hp
    simp [genPoll, hp]

/-- Witness for C8: a concrete transient event sequence (an exception on
the first attempt, then completion) is survived, and a concrete failed
status is the reason for a concrete early abort. -/
theorem C8_witness :
    genPoll (fun k => if k == 0 then GenPollEvent.exn "flaky" else GenPollEvent.http 200 (some gsdDoneW)) 0 120 =
      ((genPoll (fun k => if k == 0 then GenPollEvent.exn "flaky" else GenPollEvent.http 200 (some gsdDoneW)) 1 119).1,
       (genPoll (fun k => if k == 0 then GenPollEvent.exn "flaky" else GenPollEvent.http 200 (some gsdDoneW)) 1 119).2 + 1) ∧
    (∃ j, j < 120 ∧ ∃ sd, genPollsFailW (0 + j) = GenPollEvent.http 200 (some sd) ∧
      ((sd.status == some "failed" || sd.status == some "error") = true ∨
       ((sd.status == some "completed" || sd.status == some "success") = true ∧
        pyTruthy (genUrlChain sd) = false))) := by
  constructor
  · exact C8_generation_poll_resilience.2.2.1
      (fun k => if k == 0 then GenPollEvent.exn "flaky" else GenPollEvent.http 200 (some gsdDoneW))
      0 119 "flaky" rfl
  · exact C8_generation_poll_resilience.2.2.2 genPollsFailW 120 0 (by decide)

/-- Whether the analysis aggregate succeeds does not depend on the three
description-fallback endpoints: exceptions or bad responses there are
caught locally and never fail the analysis. -/
theorem analyze_isOk_ignores_desc_world (cfg : EnvConfig)
    (ts : Except String TaskSubmitResp) (polls : Nat → Except String StatusData)
    (u i : String) (d1 s1 : Option (Nat × DescData)) (v1 : Option (Nat × VideoData))
    (d2 s2 : Option (Nat × DescData)) (v2 : Option (Nat × VideoData)) :
    (analyze_with_twelvelabs cfg ⟨ts, polls, d1, s1, v1⟩ u i).result.isOk
      = (analyze_with_twelvelabs cfg ⟨ts, polls, d2, s2, v2⟩ u i).result.isOk := by
  by_cases hg : (cfg.twelvelabs_api_key == "" || pyIn "error" i) = true
  · simp [analyze_with_twelvelabs, hg]
  · cases ts with
    | error e => simp [analyze_with_twelvelabs, hg]
    | ok tr =>
      cases hti : pyOr (pyOr tr.underscore_id tr.id) tr.task_id with
      | none => simp [analyze_with_twelvelabs, hg, hti]
      | some t =>
        by_cases ht : (t == "") = true
        · simp [analyze_with_twelvelabs, hg, hti, ht]
        · cases hpr : (analysisPoll polls 0 60 none).1 with
          | exn m => simp [analyze_with_twelvelabs, hg, hti, ht, hpr]
          | taskFailed sd => simp [analyze_with_twelvelabs, hg, hti, ht, hpr]
          | timedOut last => simp [analyze_with_twelvelabs, hg, hti, ht, hpr]
          | ready sd =>
            cases hv : pyOr sd.video_id (some t) with
            | none => simp [analyze_with_twelvelabs, hg, hti, ht, hpr, hv]
            | some v =>
              by_cases hv2 : (v == "") = true <;>
                simp [analyze_with_twelvelabs, hg, hti, ht, hpr, hv, hv2,
                  AnalysisResult.isOk]

/-- C5 counterexample: a network exception at the very first status poll
is not caught locally — it escapes to the function-level handler, which
turns it into an error aggregate ("TwelveLabs API error: ...").  Here the
submission returned a task id, the task never reported any status at all
(so it never reported "failed"), and only one poll was attempted (so the
60-attempt budget was not exceeded) — yet the analysis aggregate is an
error, refuting the claim that the aggregate can fail only on task
failure, timeout, or a missing task identifier. -/
theorem C5_counterexample :
    (analyze_with_twelvelabs tlCfg awPollExn "vurl" "idx1").result =
      .err "TwelveLabs API error: boom" ∧
    (analyze_with_twelvelabs tlCfg awPollExn "vurl" "idx1").pollCalls = 1 ∧
    awPollExn.taskSubmit =
      Except.ok { underscore_id := some "task1", id := none, task_id := none } ∧
    (∀ k sd, awPollExn.polls k ≠ Except.ok sd) := by
  refine ⟨by decide, by decide, rfl, fun k sd h => by simp [awPollExn] at h⟩

/-- C5 (amended): network/parsing exceptions at the fallback-extraction
steps are caught locally and never change whether the analysis succeeds;
but an exception at the submission step or at any status-poll step is
caught only by the function-level handler and yields an error aggregate
("TwelveLabs API error: ..."), so the aggregate can fail for that reason
as well as for task failure, timeout, or a missing task identifier. -/
theorem C5_amended_exception_classification :
    (∀ cfg ts polls u i d1 s1 v1 d2 s2 v2,
      (analyze_with_twelvelabs cfg ⟨ts, polls, d1, s1, v1⟩ u i).result.isOk
        = (analyze_with_twelvelabs cfg ⟨ts, polls, d2, s2, v2⟩ u i).result.isOk) ∧
    (∀ cfg (w : AnalysisWorld) u i tr t m,
      (cfg.twelvelabs_api_key == "" || pyIn "error" i) = false →
      w.taskSubmit = .ok tr →
      pyOr (pyOr tr.underscore_id tr.id) tr.task_id = some t → (t == "") = false →
      (analysisPoll w.polls 0 60 none).1 = .exn m →
      (analyze_with_twelvelabs cfg w u i).result = .err ("TwelveLabs API error: " ++ m)) ∧
    (∀ cfg (w : AnalysisWorld) u i e,
      (cfg.twelvelabs_api_key == "" || pyIn "error" i) = false →
      w.taskSubmit = .error e →
      (analyze_with_twelvelabs cfg w u i).result = .err ("TwelveLabs API error: " ++ e)) := by
  refine ⟨analyze_isOk_ignores_desc_world, ?_, ?_⟩
  · intro cfg w u i tr t m hg hs ht ht2 hexn
    simp [analyze_with_twelvelabs, hg, hs, ht, ht2, hexn]
  · intro cfg w u i e hg hs
    simp [analyze_with_twelvelabs, hg, hs]

/-- Witness for C5 (amended) at concrete inputs: exceptions at all three
fallback endpoints leave a ready analysis successful, and a first-poll
exception yields the function-level error aggregate. -/
theorem C5_amended_witness :
    (analyze_with_twelvelabs tlCfg
        ⟨submitOkW, fun _ => .ok sdReadyW, none, none, none⟩ "vurl" "idx1").result.isOk
      = (analyze_with_twelvelabs tlCfg awReady "vurl" "idx1").result.isOk ∧
    (analyze_with_twelvelabs tlCfg awPollExn "vurl" "idx1").result =
      .err ("TwelveLabs API error: " ++ "boom") := by
  constructor
  · exact C5_amended_exception_classification.1 tlCfg submitOkW (fun _ => .ok sdReadyW)
      "vurl" "idx1" none none none
      (some (200, { description := some "a crisp description", summary := none })) none none
  · exact C5_amended_exception_classification.2.1 tlCfg awPollExn "vurl" "idx1"
      { underscore_id := some "task1", id := none, task_id := none } "task1" "boom"
      (by decide) rfl rfl rfl (by decide)

/-- The description is truthy after the summarize step iff the primary
endpoint or the summarize endpoint yielded a truthy value. -/
theorem descStage2_truthy (w : AnalysisWorld) :
    pyTruthy (descStage2 w) = (pyTruthy (descStage1 w) || pyTruthy (summarizeYield w)) := by
  by_cases h1 : pyTruthy (descStage1 w) = true
  · simp [descStage2, h1]
  · cases hs : w.summarizeEp with
    | none => simp [descStage2, summarizeYield, pyTruthy, hs, h1]
    | some cd =>
      obtain ⟨code, d⟩ := cd
      by_cases hc : (code == 200) = true
      · simp [descStage2, summarizeYield, hs, hc, h1]
      · simp [descStage2, summarizeYield, pyTruthy, hs, hc, h1]

/-- The description is truthy after the video-details step iff some source
so far yielded a truthy value. -/
theorem descStage3_truthy (w : AnalysisWorld) :
    pyTruthy (descStage3 w) = (pyTruthy (descStage2 w) || pyTruthy (videoYield w)) := by
  by_cases h1 : pyTruthy (descStage2 w) = true
  · simp [descStage3, h1]
  · cases hs : w.videoEp with
    | none => simp [descStage3, videoYield, pyTruthy, hs, h1]
    | some cv =>
      obtain ⟨code, v⟩ := cv
      by_cases hc : (code == 200) = true
      · simp [descStage3, videoYield, hs, hc, h1]
      · simp [descStage3, videoYield, pyTruthy, hs, hc, h1]

/-- The description is truthy after the final (task-payload) step iff some
of the four sources yielded a truthy value. -/
theorem descStage4_truthy (w : AnalysisWorld) (sd : StatusData) :
    pyTruthy (descStage4 w sd) = (pyTruthy (descStage3 w) || pyTruthy (taskYield sd)) := by
  by_cases h1 : pyTruthy (descStage3 w) = true
  · simp [descStage4, h1]
  · simp [descStage4, h1]

/-- `pyOr a (some t)` with a truthy `t` always produces a truthy value. -/
theorem pyOr_some_truthy (a : Option String) (t : String) (ht : (t == "") = false) :
    ∃ v, pyOr a (some t) = some v ∧ (v == "") = false := by
  by_cases h : pyTruthy a = true
  · cases a with
    | none => simp [pyTruthy] at h
    | some s =>
      refine ⟨s, by simp [pyOr, h], ?_⟩
      simpa [pyTruthy, bne] using h
  · exact ⟨t, by simp [pyOr, h], ht⟩

/-- C6: description fallback order.  When the primary description endpoint
yields nothing truthy, the summarization endpoint is attempted next, and
the video-details endpoint only after it (the call trace lists them in
that order); the description is empty after all stages iff each of the
four sources (primary endpoint, summarize endpoint, video-details
endpoint, task status payload) yields nothing truthy; exactly then the
fixed placeholder string is emitted; and a completed (ready) task always
produces a successful analysis aggregate, never an error, whatever the
description sources do. -/
theorem C6_description_fallback (w : AnalysisWorld) (sd : StatusData) :
    (pyTruthy (primaryYield w) = false →
      (extractDescription w sd).2 =
        [DescCall.descEndpoint, DescCall.summarizeEndpoint]
          ++ (if pyTruthy (descStage2 w) = true then [] else [DescCall.videoDetails])) ∧
    ((extractDescription w sd).2 =
        [DescCall.descEndpoint]
          ++ (if pyTruthy (descStage1 w) = true then [] else [DescCall.summarizeEndpoint])
          ++ (if pyTruthy (descStage2 w) = true then [] else [DescCall.videoDetails])) ∧
    (pyTruthy (descStage4 w sd) = false ↔
      (pyTruthy (primaryYield w) = false ∧ pyTruthy (summarizeYield w) = false ∧
       pyTruthy (videoYield w) = false ∧ pyTruthy (taskYield sd) = false)) ∧
    (pyTruthy (descStage4 w sd) = false →
      finalDescription (descStage4 w sd) = "Video processed but description unavailable") ∧
    (∀ cfg (w2 : AnalysisWorld) u i tr t sd2,
      (cfg.twelvelabs_api_key == "" || pyIn "error" i) = false →
      w2.taskSubmit = .ok tr →
      pyOr (pyOr tr.underscore_id tr.id) tr.task_id = some t → (t == "") = false →
      (analysisPoll w2.polls 0 60 none).1 = .ready sd2 →
      (analyze_with_twelvelabs cfg w2 u i).result.isOk = true) := by
  refine ⟨?_, rfl, ?_, ?_, ?_⟩
  · intro h
    simp [extractDescription, descCallTrace, descStage1, h]
  · rw [descStage4_truthy, descStage3_truthy, descStage2_truthy]
    have h1 : descStage1 w = primaryYield w := rfl
    rw [h1]
    simp [Bool.or_eq_false_iff, and_assoc]
  · intro h
    cases hd : descStage4 w sd with
    | none => simp [finalDescription]
    | some s =>
      rw [hd] at h
      have hse : s = "" := by simpa [pyTruthy] using h
      subst hse
      simp [finalDescription]
  · intro cfg w2 u i tr t sd2 hg hs ht ht2 hready
    obtain ⟨v, hv, hv2⟩ := pyOr_some_truthy sd2.video_id t ht2
    simp [analyze_with_twelvelabs, hg, hs, ht, ht2, hready, hv, hv2, AnalysisResult.isOk]

/-- Witness for C6 at concrete inputs: with an empty primary endpoint and
a delivering summarize endpoint, exactly the primary then the summarize
endpoints are called; with every source empty, the placeholder is emitted
and the analysis still succeeds. -/
theorem C6_witness :
    (extractDescription awSummarize sdReadyW).2 =
      [DescCall.descEndpoint, DescCall.summarizeEndpoint] ∧
    finalDescription (descStage4 awNoDesc sdReadyW) =
      "Video processed but description unavailable" ∧
    (analyze_with_twelvelabs tlCfg awNoDesc "vurl" "idx1").result.isOk = true := by
  refine ⟨?_, ?_, ?_⟩
  · have h := (C6_description_fallback awSummarize sdReadyW).1 (by decide)
    rw [h]
    decide
  · exact (C6_description_fallback awNoDesc sdReadyW).2.2.2.1 (by decide)
  · exact (C6_description_fallback awNoDesc sdReadyW).2.2.2.2 tlCfg awNoDesc "vurl" "idx1"
      { underscore_id := some "task1", id := none, task_id := none } "task1" sdReadyW
      (by decide) rfl rfl rfl (by decide)

/-- C1: pipeline short-circuit invariant.  An exception during upload ends
the pipeline at the upload step with status "error" and nothing else in
the response; an analysis error ends it after the analysis step — no
prompt-synthesis and no generation step executes — with status "error"; a
generation error still runs every step but downgrades the status to
"partial_success"; and with no hard error the status is "success".  The
status is thus the worst seen, with error worse than partial_success worse
than success. -/
theorem C1_pipeline_short_circuit (cfg : EnvConfig) (w : PipelineWorld) (text : String) :
    (∀ e, w.upload = Except.error e →
      process_ai cfg w text =
        ({ status := "error", message := some e, original_video := none,
           image_used := none, description := none, final_prompt := none,
           generated_video := none }, [PStep.upload])) ∧
    (∀ v i m, w.upload = Except.ok (v, i) →
      (analyze_with_twelvelabs cfg w.analysis v
          (create_index_if_needed cfg w.indexResp).result).result = .err m →
      (process_ai cfg w text).1.status = "error" ∧
      (process_ai cfg w text).2 = [PStep.upload, PStep.resolveIndex, PStep.analysis]) ∧
    (∀ v i vid d gm, w.upload = Except.ok (v, i) →
      (analyze_with_twelvelabs cfg w.analysis v
          (create_index_if_needed cfg w.indexResp).result).result = .ok vid d →
      (generate_with_higgsfield cfg w.genSubmit w.genPolls
          (generate_prompt_with_gpt cfg w.chat d text) i).result = .err gm →
      (process_ai cfg w text).1.status = "partial_success" ∧
      (process_ai cfg w text).2 = [PStep.upload, PStep.resolveIndex, PStep.analysis,
        PStep.promptSynthesis, PStep.generation]) ∧
    (∀ v i vid d gu, w.upload = Except.ok (v, i) →
      (analyze_with_twelvelabs cfg w.analysis v
          (create_index_if_needed cfg w.indexResp).result).result = .ok vid d →
      (generate_with_higgsfield cfg w.genSubmit w.genPolls
          (generate_prompt_with_gpt cfg w.chat d text) i).result = .ok gu →
      (process_ai cfg w text).1.status = "success") := by
  refine ⟨?_, ?_, ?_, ?_⟩
  · intro e hu
    simp [process_ai, hu]
  · intro v i m hu ha
    simp [process_ai, hu, ha]
  · intro v i vid d gm hu ha hg
    simp [process_ai, hu, ha, hg]
  · intro v i vid d gu hu ha hg
    simp [process_ai, hu, ha, hg]

/-- Witness for C1 at concrete worlds: an upload exception stops the
pipeline at the upload step; a first-poll analysis failure stops it after
the analysis step with status "error". -/
theorem C1_witness :
    process_ai tlCfg wUploadFail "idea" =
      ({ status := "error", message := some "upload boom", original_video := none,
         image_used := none, description := none, final_prompt := none,
         generated_video := none }, [PStep.upload]) ∧
    (process_ai tlCfg wFailAnalysis "idea").1.status = "error" ∧
    (process_ai tlCfg wFailAnalysis "idea").2 =
      [PStep.upload, PStep.resolveIndex, PStep.analysis] := by
  refine ⟨?_, ?_, ?_⟩
  · exact (C1_pipeline_short_circuit tlCfg wUploadFail "idea").1 "upload boom" rfl
  · exact ((C1_pipeline_short_circuit tlCfg wFailAnalysis "idea").2.1 "vurl" "iurl"
      "Task failed" rfl (by decide)).1
  · exact ((C1_pipeline_short_circuit tlCfg wFailAnalysis "idea").2.1 "vurl" "iurl"
      "Task failed" rfl (by decide)).2

/-- C2: whenever the analysis step returns an error value — in particular
when the provider reports "failed" on the first poll — the response has
status "error", carries the uploaded video and image URLs, and has no
description, final-prompt, or generated-video key at all. -/
theorem C2_analysis_error_response (cfg : EnvConfig) (w : PipelineWorld)
    (text v i m : String)
    (hu : w.upload = Except.ok (v, i))
    (ha : (analyze_with_twelvelabs cfg w.analysis v
        (create_index_if_needed cfg w.indexResp).result).result = .err m) :
    (process_ai cfg w text).1 =
      { status := "error", message := some ("Video analysis failed: " ++ m),
        original_video := some v, image_used := some i, description := none,
        final_prompt := none, generated_video := none } := by
  simp [process_ai, hu, ha]

/-- Witness for C2: the analysis provider reports "failed" on the first
poll, and the response carries exactly the uploaded URLs. -/
theorem C2_witness :
    (process_ai tlCfg wFailAnalysis "idea").1 =
      { status := "error", message := some ("Video analysis failed: " ++ "Task failed"),
        original_video := some "vurl", image_used := some "iurl", description := none,
        final_prompt := none, generated_video := none } :=
  C2_analysis_error_response tlCfg wFailAnalysis "idea" "vurl" "iurl" "Task failed"
    rfl (by decide)

/-- C3: whenever the generation step returns an error value — in
particular when the provider reports "failed" — the response has status
"partial_success" and carries the uploaded URLs, the description and the
final prompt, with the generated_video key present and null. -/
theorem C3_generation_error_response (cfg : EnvConfig) (w : PipelineWorld)
    (text v i vid d gm : String)
    (hu : w.upload = Except.ok (v, i))
    (ha : (analyze_with_twelvelabs cfg w.analysis v
        (create_index_if_needed cfg w.indexResp).result).result = .ok vid d)
    (hg : (generate_with_higgsfield cfg w.genSubmit w.genPolls
        (generate_prompt_with_gpt cfg w.chat d text) i).result = .err gm) :
    (process_ai cfg w text).1 =
      { status := "partial_success",
        message := some ("Video generation failed: " ++ gm),
        original_video := some v, image_used := some i, description := some d,
        final_prompt := some (generate_prompt_with_gpt cfg w.chat d text),
        generated_video := some none } := by
  simp [process_ai, hu, ha, hg]

/-- Witness for C3: the generation provider reports "failed"; the response
is a partial success carrying description and prompt with a null
generated video. -/
theorem C3_witness :
    (process_ai tlCfg wGenFail "idea").1 =
      { status := "partial_success",
        message := some ("Video generation failed: "
          ++ "Generation failed: gpu melted"),
        original_video := some "vurl", image_used := some "iurl",
        description := some "a crisp description",
        final_prompt := some (generate_prompt_with_gpt tlCfg wGenFail.chat
          "a crisp description" "idea"),
        generated_video := some none } :=
  C3_generation_error_response tlCfg wGenFail "idea" "vurl" "iurl" "vid1"
    "a crisp description" "Generation failed: gpu melted" rfl (by decide) (by decide)
